import Mathlib

/-!
Verification of the task-manager / notification-scheduler core of the
cs50p_final_project repository.

The definitions below are a shallow embedding of the Python source:
  - `src/models/task_manager.py` (SQLite store: users, tasks, priorities,
    categories, preferences),
  - `src/notification_manager.py` and `src/services/notification.py`
    (the notification scheduler),
  - `src/helpers/utils.py` (validation and password hashing).
Tables are lists of row records; each SQL statement is transcribed as the
corresponding pure list transformation.  Python exceptions that the store
raises to its caller are modelled with `Except`; external effects (the
SHA-256 digest, the desktop notification channel, the wall clock) are
passed in as explicit parameters.
-/

/-! ## Status constants (src/helpers/constants.py) -/

def STATUS_INACTIVE : Nat := 0

def STATUS_ACTIVE : Nat := 1

def STATUS_COMPLETED : Nat := 2

/-! ## Rows of the SQLite tables (CREATE TABLE statements in task_manager.py) -/

/-- Row of `users(id, name, username, email, password, salt, created_at, status)`.
`name` and `email` are nullable (not supplied by the INSERT in `create_user`). -/
structure UserRow where
  id : Nat
  name : Option String
  username : String
  email : Option String
  password : String
  salt : String
  created_at : String
  status : Nat
deriving Repr, DecidableEq

/-- Row of `tasks(id, user_id, name, due_date, priority, category, created_at, status)`. -/
structure TaskRow where
  id : Nat
  user_id : Nat
  name : String
  due_date : String
  priority : String
  category : String
  created_at : String
  status : Nat
deriving Repr, DecidableEq

/-- Row of `priorities(id, user_id, name, color, created_at, status)`. -/
structure PriorityRow where
  id : Nat
  user_id : Nat
  name : String
  color : String
  created_at : String
  status : Nat
deriving Repr, DecidableEq

/-- Row of `categories(id, user_id, name, created_at, status)`. -/
structure CategoryRow where
  id : Nat
  user_id : Nat
  name : String
  created_at : String
  status : Nat
deriving Repr, DecidableEq

/-- Row of `preferences(id, user_id, key, value, created_at, status)`.
The source schema declares the `key` column `TEXT UNIQUE`: the uniqueness
constraint is on `key` alone, not on the pair (user_id, key). -/
structure PreferenceRow where
  id : Nat
  user_id : Nat
  key : String
  value : String
  created_at : String
  status : Nat
deriving Repr, DecidableEq

/-- The database file: one list per table, plus the AUTOINCREMENT counters. -/
structure DB where
  users : List UserRow
  tasks : List TaskRow
  priorities : List PriorityRow
  categories : List CategoryRow
  preferences : List PreferenceRow
  nextUserId : Nat
  nextTaskId : Nat
  nextPriorityId : Nat
  nextCategoryId : Nat
  nextPreferenceId : Nat
deriving Repr, DecidableEq

def emptyDB : DB := ⟨[], [], [], [], [], 1, 1, 1, 1, 1⟩

/-! ## Validation helpers (src/helpers/utils.py) -/

/-- Python `str.strip()`: drop leading and trailing whitespace characters. -/
def pyStrip (s : String) : List Char :=
  ((s.data.dropWhile Char.isWhitespace).reverse.dropWhile Char.isWhitespace).reverse

/-- `is_valid_task_name`: `len(task_name.strip()) > 0`. -/
def is_valid_task_name (task_name : String) : Bool :=
  decide (0 < (pyStrip task_name).length)

/-- `hash_password(password, salt)` with an explicitly supplied salt:
`hashlib.sha256(password_bytes + salt_bytes).hexdigest()`.  The SHA-256
digest is an external primitive, passed in as `sha256hex`.  Returns the
(digest, salt) pair exactly as the Python function does. -/
def hash_password (sha256hex : String → String) (password salt : String) :
    String × String :=
  (sha256hex (password ++ salt), salt)

/-! ## Credential store (task_manager.py) -/

/-- `create_user(username, password)`: hashes the password with a fresh salt
(the generated salt is the explicit `salt` argument here, the timestamp the
`created_at` argument) and inserts the row with status active.  `name` and
`email` are not part of the INSERT column list, so they are NULL.  Returns
`None` on success (first component). -/
def create_user (sha256hex : String → String) (salt : String)
    (username password created_at : String) (db : DB) : Option String × DB :=
  let hashed_password := (hash_password sha256hex password salt).1
  (none,
    { db with
        users := db.users ++
          [⟨db.nextUserId, none, username, none, hashed_password, salt,
            created_at, STATUS_ACTIVE⟩],
        nextUserId := db.nextUserId + 1 })

/-- `verify_user(username, password)`: `SELECT id, password, salt FROM users
WHERE username = ?` followed by `fetchone()` (the first matching row),
then recompute the hash with the stored salt and compare. -/
def verify_user (sha256hex : String → String) (username password : String)
    (db : DB) : Bool × Option Nat :=
  match db.users.find? (fun u => u.username == username) with
  | none => (false, none)
  | some u =>
    if u.password == (hash_password sha256hex password u.salt).1 then
      (true, some u.id)
    else
      (false, none)

/-! ## Task store (task_manager.py) -/

/-- `add_task(user_id, task_name, due_date, priority, category)`:
`raise ValueError("Invalid task name.")` when the trimmed name is empty
(modelled as `Except.error`), otherwise INSERT with status active and
return the `(None, task_id)` sentinel pair together with the new state. -/
def add_task (user_id : Nat) (task_name due_date priority category : String)
    (created_at : String) (db : DB) :
    Except String ((Option String × Option Nat) × DB) :=
  if is_valid_task_name task_name = false then
    Except.error "Invalid task name."
  else
    Except.ok ((none, some db.nextTaskId),
      { db with
          tasks := db.tasks ++
            [⟨db.nextTaskId, user_id, task_name, due_date, priority, category,
              created_at, STATUS_ACTIVE⟩],
          nextTaskId := db.nextTaskId + 1 })

/-- Effect of the `UPDATE tasks SET name, due_date, priority, category`
statement on one row: overwrite the four columns when the id matches. -/
def update_row (task_id : Nat) (name due_date priority category : String)
    (t : TaskRow) : TaskRow :=
  if t.id == task_id then
    { t with name := name, due_date := due_date, priority := priority,
             category := category }
  else t

/-- `update_task(task_id, name, due_date, priority, category)`: unconditional
`UPDATE tasks SET ... WHERE id = ?`; a nonexistent id updates zero rows and
still returns the `None` success sentinel. -/
def update_task (task_id : Nat) (name due_date priority category : String)
    (db : DB) : Option String × DB :=
  (none,
    { db with
        tasks := db.tasks.map (update_row task_id name due_date priority category) })

/-- `remove_tasks(task_ids)`: one bulk
`UPDATE tasks SET status = 0 WHERE id IN (...)`, unconditional on the
current status of each row.  An empty id list produces the SQL text
`IN ()`, which SQLite rejects, so the method returns the error string
instead (the state is unchanged either way). -/
def remove_row (task_ids : List Nat) (t : TaskRow) : TaskRow :=
  if task_ids.contains t.id then { t with status := STATUS_INACTIVE } else t

def remove_tasks (task_ids : List Nat) (db : DB) : String × DB :=
  if task_ids.isEmpty then
    ("syntax error", db)
  else
    ("Tasks successfully set as inactive.",
      { db with tasks := db.tasks.map (remove_row task_ids) })

/-- Effect of the `UPDATE tasks SET status = 2 WHERE id = ?` statement on
one row. -/
def complete_row (task_id : Nat) (t : TaskRow) : TaskRow :=
  if t.id == task_id then { t with status := STATUS_COMPLETED } else t

/-- `set_task_complete(task_id)`: unconditional
`UPDATE tasks SET status = 2 WHERE id = ?`. -/
def set_task_complete (task_id : Nat) (db : DB) : DB :=
  { db with tasks := db.tasks.map (complete_row task_id) }

/-- One INSERT of the import loop: columns 0-3 of the CSV row become the
task fields, with a fresh id, the importing user and status active. -/
def import_row (user_id : Nat) (created_at : String) (acc : DB)
    (r : List String) : DB :=
  { acc with
      tasks := acc.tasks ++
        [⟨acc.nextTaskId, user_id, r.getD 0 "", r.getD 1 "", r.getD 2 "",
          r.getD 3 "", created_at, STATUS_ACTIVE⟩],
      nextTaskId := acc.nextTaskId + 1 }

/-- `import_tasks(file_name, user_id)`: rows of the CSV body (header already
skipped).  Rows with fewer than 5 fields are skipped with a log message; a
row whose first field fails the task-name validation raises, which rolls the
whole import back (the sqlite3 connection context manager); otherwise each
eligible row is inserted as a new active task. -/
def import_tasks (rows : List (List String)) (user_id : Nat)
    (created_at : String) (db : DB) : String × DB :=
  let eligible := rows.filter (fun r => decide (5 ≤ r.length))
  if eligible.all (fun r => is_valid_task_name (r.getD 0 "")) then
    ("Import successful", eligible.foldl (import_row user_id created_at) db)
  else
    ("Import failed: Invalid task name", db)

/-- Row shape returned by `list_tasks` and `search_tasks`:
`(t.id, t.name, t.due_date, t.priority, t.category, t.status, p.color)`
with a nullable color from the LEFT JOIN. -/
structure TaskViewRow where
  id : Nat
  name : String
  due_date : String
  priority : String
  category : String
  status : Nat
  color : Option String
deriving Repr, DecidableEq

def task_view (t : TaskRow) (color : Option String) : TaskViewRow :=
  ⟨t.id, t.name, t.due_date, t.priority, t.category, t.status, color⟩

/-- The rows of `priorities` matched by the join condition
`t.priority = p.name AND t.user_id = p.user_id`. -/
def matching_priorities (db : DB) (t : TaskRow) : List PriorityRow :=
  db.priorities.filter (fun p => t.priority == p.name && t.user_id == p.user_id)

/-- LEFT JOIN semantics: when no priority row matches, the task still
produces one output row with a NULL color; otherwise one output row per
matching priority row. -/
def left_join_colors (db : DB) (t : TaskRow) : List (Option String) :=
  if (matching_priorities db t).isEmpty then [none]
  else (matching_priorities db t).map (fun p => some p.color)

/-- `list_tasks(user_id, status=None)`: when status is None the WHERE clause
is `t.user_id = ? AND t.status IN (1, 2)`, otherwise `t.status = ?`; either
way LEFT JOIN against priorities on (name, user_id) for the color column. -/
def list_tasks (user_id : Nat) (status : Option Nat) (db : DB) :
    List TaskViewRow :=
  match status with
  | none =>
    (db.tasks.filter (fun t =>
        t.user_id == user_id &&
          (t.status == STATUS_ACTIVE || t.status == STATUS_COMPLETED))).flatMap
      (fun t => (left_join_colors db t).map (task_view t))
  | some s =>
    (db.tasks.filter (fun t => t.user_id == user_id && t.status == s)).flatMap
      (fun t => (left_join_colors db t).map (task_view t))

/-- `get_due_tasks()`: `SELECT name FROM tasks WHERE due_date = ? AND
status = ?` with today's date string and the active status — note the
query has no user_id condition at all. -/
def get_due_tasks (today : String) (db : DB) : List String :=
  (db.tasks.filter (fun t => t.due_date == today && t.status == STATUS_ACTIVE)).map
    (fun t => t.name)

/-! ## Catalog store (task_manager.py) -/

/-- `priority_exists(priority_name)`: `SELECT 1 FROM priorities WHERE
name = ?` — the WHERE clause mentions only the name, no user_id. -/
def priority_exists (priority_name : String) (db : DB) : Bool :=
  db.priorities.any (fun p => p.name == priority_name)

/-- `add_priority(priority_name, color, user_id)`: refuses with a message
when `priority_exists` reports a duplicate, otherwise inserts the row with
status active.  (The Python message wraps the name in single quotes.) -/
def add_priority (priority_name color : String) (user_id : Nat)
    (created_at : String) (db : DB) : String × DB :=
  if priority_exists priority_name db then
    ("Priority " ++ priority_name ++ " already exists.", db)
  else
    ("Priority " ++ priority_name ++ " added successfully.",
      { db with
          priorities := db.priorities ++
            [⟨db.nextPriorityId, user_id, priority_name, color, created_at,
              STATUS_ACTIVE⟩],
          nextPriorityId := db.nextPriorityId + 1 })

/-- `category_exists(category_name)`: `SELECT 1 FROM categories WHERE
name = ?` — again scoped by name only. -/
def category_exists (category_name : String) (db : DB) : Bool :=
  db.categories.any (fun c => c.name == category_name)

/-- `add_category(category_name, user_id)`: same shape as `add_priority`. -/
def add_category (category_name : String) (user_id : Nat)
    (created_at : String) (db : DB) : String × DB :=
  if category_exists category_name db then
    ("Category " ++ category_name ++ " already exists.", db)
  else
    ("Category " ++ category_name ++ " added successfully.",
      { db with
          categories := db.categories ++
            [⟨db.nextCategoryId, user_id, category_name, created_at,
              STATUS_ACTIVE⟩],
          nextCategoryId := db.nextCategoryId + 1 })

/-- `load_priorities(user_id)`: the user's rows (`SELECT name FROM
priorities WHERE user_id = ?`) followed by the process-wide
`DEFAULT_PRIORITIES` list (an environment-provided configuration value,
passed here as `default_priorities`); no de-duplication. -/
def load_priorities (user_id : Nat) (default_priorities : List String)
    (db : DB) : List String :=
  (db.priorities.filter (fun p => p.user_id == user_id)).map (fun p => p.name)
    ++ default_priorities

/-! ## Preference store (task_manager.py) -/

/-- `get_preferences(user_id)`: `SELECT key, value FROM preferences WHERE
user_id = ?`, returned as key/value pairs. -/
def get_preferences (user_id : Nat) (db : DB) : List (String × String) :=
  (db.preferences.filter (fun r => r.user_id == user_id)).map
    (fun r => (r.key, r.value))

/-- One `REPLACE INTO preferences (user_id, key, value, created_at)
VALUES (?,?,?,?)` statement.  Because the schema declares `key TEXT
UNIQUE`, REPLACE deletes every existing row carrying the same key —
whichever user owns it — and then inserts the new row (fresh id, status
from the column default 1). -/
def replace_into_preference (user_id : Nat) (key value created_at : String)
    (db : DB) : DB :=
  { db with
      preferences := db.preferences.filter (fun r => r.key != key) ++
        [⟨db.nextPreferenceId, user_id, key, value, created_at, 1⟩],
      nextPreferenceId := db.nextPreferenceId + 1 }

/-- `save_preferences(user_id, preferences)`: one REPLACE statement per
key/value pair, returning the `None` success sentinel. -/
def save_preferences (user_id : Nat) (prefs : List (String × String))
    (created_at : String) (db : DB) : Option String × DB :=
  (none,
    prefs.foldl (fun acc kv => replace_into_preference user_id kv.1 kv.2 created_at acc) db)

/-! ## Notification scheduler (src/notification_manager.py) -/

/-- The observations the scheduler makes of a Python `datetime` value:
its absolute time in seconds (for `(a - b).total_seconds()`), its
calendar date, its `isocalendar()[1]` week number, and its month/year
fields. -/
structure PyDateTime where
  epochSeconds : Int
  year : Int
  month : Nat
  day : Nat
  isoWeek : Nat
deriving Repr, DecidableEq

/-- `datetime.date()` as the (year, month, day) triple. -/
def dateTriple (t : PyDateTime) : Int × Nat × Nat := (t.year, t.month, t.day)

/-- `self.sent_notifications`: the id-to-last-sent-datetime dictionary. -/
abbrev NMState := List (String × PyDateTime)

/-- `self.sent_notifications[notification_id] = datetime.datetime.now()`. -/
def update_last_sent_time (st : NMState) (notification_id : String)
    (now : PyDateTime) : NMState :=
  (notification_id, now) :: st.filter (fun kv => kv.1 != notification_id)

/-- `should_send_notification(notification_id, frequency)`: transcription of
the if/elif chain.  Only the four tags daily / hourly / weekly / immediate
are tested; any other frequency string falls through to the final
`return True`, as does an id with no recorded last-sent time. -/
def should_send_notification (st : NMState) (notification_id frequency : String)
    (current_time : PyDateTime) : Bool :=
  match st.lookup notification_id with
  | none => true
  | some last_sent_time =>
    if frequency == "daily" then
      dateTriple last_sent_time != dateTriple current_time
    else if frequency == "hourly" then
      decide (3600 ≤ current_time.epochSeconds - last_sent_time.epochSeconds)
    else if frequency == "weekly" then
      current_time.isoWeek != last_sent_time.isoWeek
    else if frequency == "immediate" then
      true
    else
      true

/-- Python `dict.get(key, default)` over the fetched preferences. -/
def prefGet (prefs : List (String × String)) (key default : String) : String :=
  (prefs.lookup key).getD default

/-- `send_windows_notification(title, message, task_manager, ...)` from
src/helpers/utils.py: re-reads the preferences, returns False when the
user disabled notifications, otherwise the outcome of the external
`plyer` call (`notify_ok`: true when `notification.notify` raised no
exception). -/
def send_windows_notification (prefs : List (String × String))
    (notify_ok : Bool) : Bool :=
  if prefGet prefs "enable_notifications" "True" == "True" then notify_ok
  else false

/-- `send_notification(notification_id, title, message, task_manager,
frequency, ...)`: empty title or message short-circuits to False with no
state change; otherwise the send is gated on the `enable_notifications`
preference and the frequency policy, the delivery channel is invoked, and
only a successful delivery records the new last-sent time.  `prefs` is the
dictionary fetched from `task_manager.get_preferences()`. -/
def send_notification (st : NMState) (prefs : List (String × String))
    (notify_ok : Bool) (now : PyDateTime)
    (notification_id title message frequency : String) : Bool × NMState :=
  if title == "" || message == "" then
    (false, st)
  else
    let enable_notifications := prefGet prefs "enable_notifications" "True" == "True"
    if enable_notifications &&
        should_send_notification st notification_id frequency now then
      let success := send_windows_notification prefs notify_ok
      if success then
        (true, update_last_sent_time st notification_id now)
      else
        (false, st)
    else
      (false, st)

/-! ## Store-operation traces (for the status state machine) -/

/-- The status of the task with the given id, as read back from the table
(the first row with that id, `None` when absent). -/
def taskStatus (db : DB) (task_id : Nat) : Option Nat :=
  (db.tasks.find? (fun t => t.id == task_id)).map (fun t => t.status)

/-- The task-mutating public operations of the store, with their inputs. -/
inductive StoreOp where
  | addTaskOp (user_id : Nat) (name due_date priority category created_at : String)
  | updateTaskOp (task_id : Nat) (name due_date priority category : String)
  | removeTasksOp (task_ids : List Nat)
  | setTaskCompleteOp (task_id : Nat)
  | importTasksOp (rows : List (List String)) (user_id : Nat) (created_at : String)

/-- Effect of one store operation on the database (a raised/failed
operation leaves the state unchanged: the validation in `add_task`
precedes the INSERT, and a failed import is rolled back). -/
def applyOp (op : StoreOp) (db : DB) : DB :=
  match op with
  | .addTaskOp uid n d p c cr =>
    match add_task uid n d p c cr db with
    | .error _ => db
    | .ok r => r.2
  | .updateTaskOp tid n d p c => (update_task tid n d p c db).2
  | .removeTasksOp ids => (remove_tasks ids db).2
  | .setTaskCompleteOp tid => set_task_complete tid db
  | .importTasksOp rows uid cr => (import_tasks rows uid cr db).2

/-- Effect of a sequence of store operations. -/
def applyOps (ops : List StoreOp) (db : DB) : DB :=
  ops.foldl (fun acc op => applyOp op acc) db

/-! ## Single-character mutations (for the password round-trip property) -/

/-- `q` differs from `p` in exactly one character position (same length,
exactly one index where the characters disagree). -/
def singleCharDiff (p q : String) : Prop :=
  p.data.length = q.data.length ∧
    ((p.data.zip q.data).filter (fun ab => ab.1 != ab.2)).length = 1

/-! ## Theorems -/

/-- Claim C9: `load_priorities` returns the user's own priority names with
the process-wide default list appended, with no de-duplication (the
multiplicity of every name is the sum of its multiplicities in the user's
rows and in the default list); for a user with zero custom priority rows it
returns exactly the configured default list in its configured order. -/
theorem claim_C9 (user_id : Nat) (defaults : List String) (db : DB) :
    (∀ n, (load_priorities user_id defaults db).count n =
        ((db.priorities.filter (fun p => p.user_id == user_id)).map
          (fun p => p.name)).count n + defaults.count n) ∧
    (db.priorities.filter (fun p => p.user_id == user_id) = [] →
      load_priorities user_id defaults db = defaults) := by
  constructor
  · intro n
    simp [load_priorities, List.count_append]
  · intro h
    simp [load_priorities, h]

/-- Witness for claim C9: a user with zero custom priorities gets exactly
the configured default list. -/
theorem claim_C9_witness :
    emptyDB.priorities.filter (fun p => p.user_id == 1) = [] ∧
    load_priorities 1 ["High", "Medium", "Low"] emptyDB
      = ["High", "Medium", "Low"] :=
  ⟨rfl, (claim_C9 1 ["High", "Medium", "Low"] emptyDB).2 rfl⟩

/-- Claim C10: `get_due_tasks` is not scoped to any user — a name is
returned exactly when some task row of any user is active and due on the
given date. -/
theorem claim_C10 (today : String) (db : DB) (n : String) :
    n ∈ get_due_tasks today db ↔
      ∃ t ∈ db.tasks, t.status = STATUS_ACTIVE ∧ t.due_date = today ∧
        t.name = n := by
  simp only [get_due_tasks, List.mem_map, List.mem_filter, Bool.and_eq_true,
    beq_iff_eq]
  constructor
  · rintro ⟨t, ⟨ht, hd, hs⟩, hn⟩
    exact ⟨t, ht, hs, hd, hn⟩
  · rintro ⟨t, ht, hs, hd, hn⟩
    exact ⟨t, ⟨ht, hd, hs⟩, hn⟩

/-- Claim C2 (code bug): because the `preferences` schema declares `key
TEXT UNIQUE` (global, not per user), `REPLACE INTO` in `save_preferences`
deletes another user's row carrying the same key.  After user 1 saves
theme=Dark, user 1's preferences contain it; after user 2 then saves
theme=Light, user 1's preference row is gone and user 2 owns the key. -/
theorem claim_C2_key_collision :
    get_preferences 1 ((save_preferences 1 [("theme", "Dark")] "t1" emptyDB).2)
        = [("theme", "Dark")] ∧
    get_preferences 1 ((save_preferences 2 [("theme", "Light")] "t2"
        ((save_preferences 1 [("theme", "Dark")] "t1" emptyDB).2)).2) = [] ∧
    get_preferences 2 ((save_preferences 2 [("theme", "Light")] "t2"
        ((save_preferences 1 [("theme", "Dark")] "t1" emptyDB).2)).2)
        = [("theme", "Light")] := by
  decide

/-- Counterexample to claim C8: user 1 already holds priority High; when
user 2 tries to add a priority of the same name, `add_priority` refuses
with the already-exists message and leaves the database unchanged, even
though user 2 holds no row of that name — the existence check is global,
not per user. -/
theorem claim_C8_counterexample :
    add_priority "High" "blue" 2 "t1"
        ⟨[], [], [⟨1, 1, "High", "red", "t0", 1⟩], [], [], 1, 1, 2, 1, 1⟩
      = ("Priority High already exists.",
         ⟨[], [], [⟨1, 1, "High", "red", "t0", 1⟩], [], [], 1, 1, 2, 1, 1⟩) ∧
    (⟨[], [], [⟨1, 1, "High", "red", "t0", 1⟩], [], [], 1, 1, 2, 1, 1⟩ :
        DB).priorities.all (fun p => p.user_id == 1) = true := by
  decide

/-- Claim C8 as amended: the existence checks are scoped globally by name —
`priority_exists` (resp. `category_exists`) reports a duplicate exactly when
a row of that name exists among ANY user's rows, and `add_priority`
(resp. `add_category`) refuses the insert with an already-exists message
for any such global duplicate, so two different users cannot each create a
priority or category of the same name through these operations. -/
theorem claim_C8_amended (nP nC color : String) (uid : Nat) (created : String)
    (db : DB) :
    (priority_exists nP db = true ↔ ∃ p ∈ db.priorities, p.name = nP) ∧
    (category_exists nC db = true ↔ ∃ c ∈ db.categories, c.name = nC) ∧
    (priority_exists nP db = true →
      add_priority nP color uid created db
        = ("Priority " ++ nP ++ " already exists.", db)) ∧
    (category_exists nC db = true →
      add_category nC uid created db
        = ("Category " ++ nC ++ " already exists.", db)) := by
  refine ⟨?_, ?_, ?_, ?_⟩
  · simp [priority_exists, List.any_eq_true, beq_iff_eq]
  · simp [category_exists, List.any_eq_true, beq_iff_eq]
  · intro h
    simp [add_priority, h]
  · intro h
    simp [add_category, h]

/-- Witness for claim C8 as amended: with one priority row named High owned
by user 1, the global existence check fires and user 2's insert of the same
name is refused. -/
theorem claim_C8_amended_witness :
    priority_exists "High"
        ⟨[], [], [⟨1, 1, "High", "red", "t0", 1⟩], [], [], 1, 1, 2, 1, 1⟩ = true ∧
    add_priority "High" "blue" 2 "t1"
        ⟨[], [], [⟨1, 1, "High", "red", "t0", 1⟩], [], [], 1, 1, 2, 1, 1⟩
      = ("Priority High already exists.",
         ⟨[], [], [⟨1, 1, "High", "red", "t0", 1⟩], [], [], 1, 1, 2, 1, 1⟩) :=
  ⟨by decide,
   (claim_C8_amended "High" "c" "blue" 2 "t1"
      ⟨[], [], [⟨1, 1, "High", "red", "t0", 1⟩], [], [], 1, 1, 2, 1, 1⟩).2.2.1
     (by decide)⟩

/-- Counterexample to claim C4: `add_task` with a whitespace-only task name
raises `ValueError("Invalid task name.")` (modelled as `Except.error`)
instead of returning a sentinel value, even though an empty trimmed task
name is one of the expected validation failures the claim covers. -/
theorem claim_C4_counterexample :
    add_task 1 " " "2025-01-01" "High" "Bills" "t0" emptyDB
      = Except.error "Invalid task name." := rfl

/-- Claim C4 as amended: expected failure modes yield sentinel returns —
not-found verification yields `(false, null)`, a duplicate priority yields
an already-exists message with the state unchanged, and updating any id
returns the `None` success sentinel — EXCEPT that `add_task` raises a
`ValueError` (an exception, not a sentinel) when the trimmed task name is
empty; with a valid name it returns the `(None, taskId)` sentinel pair. -/
theorem claim_C4_amended (sha256hex : String → String) (user_id tid uid2 : Nat)
    (name due pri cat created n2 d2 p2 c2 pname color username password : String)
    (db : DB) :
    (is_valid_task_name name = false →
      add_task user_id name due pri cat created db
        = Except.error "Invalid task name.") ∧
    (is_valid_task_name name = true →
      ∃ db2, add_task user_id name due pri cat created db
        = Except.ok ((none, some db.nextTaskId), db2)) ∧
    ((∀ u ∈ db.users, u.username ≠ username) →
      verify_user sha256hex username password db = (false, none)) ∧
    (priority_exists pname db = true →
      add_priority pname color uid2 created db
        = ("Priority " ++ pname ++ " already exists.", db)) ∧
    (update_task tid n2 d2 p2 c2 db).1 = none := by
  refine ⟨?_, ?_, ?_, ?_, ?_⟩
  · intro h
    simp [add_task, h]
  · intro h
    exact ⟨{ db with
        tasks := db.tasks ++
          [⟨db.nextTaskId, user_id, name, due, pri, cat, created, STATUS_ACTIVE⟩],
        nextTaskId := db.nextTaskId + 1 }, by simp [add_task, h]⟩
  · intro h
    have hfind : db.users.find? (fun u => u.username == username) = none := by
      rw [List.find?_eq_none]
      intro u hu
      simpa using h u hu
    simp [verify_user, hfind]
  · intro h
    simp [add_priority, h]
  · rfl

/-- Witness for claim C4 as amended: concrete instantiation — blank name
raises, a valid name returns the sentinel pair, an unknown username
verifies to `(false, null)`, and a duplicate priority insert is refused. -/
theorem claim_C4_amended_witness :
    (is_valid_task_name " " = false ∧
      add_task 7 " " "d" "p" "c" "t" emptyDB = Except.error "Invalid task name.") ∧
    (is_valid_task_name "Pay rent" = true ∧
      ∃ db2, add_task 7 "Pay rent" "d" "p" "c" "t" emptyDB
        = Except.ok ((none, some 1), db2)) ∧
    ((∀ u ∈ emptyDB.users, u.username ≠ "ghost") ∧
      verify_user (fun s => s) "ghost" "pw" emptyDB = (false, none)) :=
  ⟨⟨by decide,
    (claim_C4_amended (fun s => s) 7 0 0 " " "d" "p" "c" "t" "" "" "" "" "" ""
      "ghost" "pw" emptyDB).1 (by decide)⟩,
   ⟨by decide,
    (claim_C4_amended (fun s => s) 7 0 0 "Pay rent" "d" "p" "c" "t" "" "" "" ""
      "" "" "ghost" "pw" emptyDB).2.1 (by decide)⟩,
   ⟨by simp [emptyDB], (claim_C4_amended (fun s => s) 7 0 0 "x" "d" "p" "c" "t"
      "" "" "" "" "" "" "ghost" "pw" emptyDB).2.2.1 (by simp [emptyDB])⟩⟩

/-- Counterexample to claim C1: for frequency monthly with a recorded
last-sent time in the same month and year as now, the claim requires the
scheduler to refuse the send, but `should_send_notification` returns true —
the monthly branch (like biweekly, yearly and custom) is not implemented
and control falls through to the final `return True`. -/
theorem claim_C1_counterexample :
    should_send_notification [("n1", ⟨0, 2024, 5, 10, 19⟩)] "n1" "monthly"
        ⟨86400, 2024, 5, 11, 19⟩ = true ∧
    (⟨0, 2024, 5, 10, 19⟩ : PyDateTime).month
        = (⟨86400, 2024, 5, 11, 19⟩ : PyDateTime).month ∧
    (⟨0, 2024, 5, 10, 19⟩ : PyDateTime).year
        = (⟨86400, 2024, 5, 11, 19⟩ : PyDateTime).year := by
  decide

/-- Claim C1 as amended: with no recorded last-sent time every frequency
sends; with a recorded time, immediate always sends, hourly sends iff at
least 3600 seconds elapsed, daily iff the calendar dates differ, weekly iff
the ISO week numbers differ, and EVERY other frequency tag — including
biweekly, monthly, yearly and custom_N — sends unconditionally, because the
if/elif chain tests only those four tags before the final `return True`. -/
theorem claim_C1_amended (st : NMState) (nid frequency : String)
    (now last : PyDateTime) :
    (st.lookup nid = none →
      should_send_notification st nid frequency now = true) ∧
    (st.lookup nid = some last →
      (should_send_notification st nid "immediate" now = true) ∧
      (should_send_notification st nid "hourly" now = true ↔
        3600 ≤ now.epochSeconds - last.epochSeconds) ∧
      (should_send_notification st nid "daily" now = true ↔
        dateTriple last ≠ dateTriple now) ∧
      (should_send_notification st nid "weekly" now = true ↔
        now.isoWeek ≠ last.isoWeek) ∧
      (frequency ≠ "daily" → frequency ≠ "hourly" → frequency ≠ "weekly" →
        should_send_notification st nid frequency now = true)) := by
  constructor
  · intro h
    simp [should_send_notification, h]
  · intro h
    refine ⟨?_, ?_, ?_, ?_, ?_⟩
    · simp [should_send_notification, h]
    · simp [should_send_notification, h]
    · simp [should_send_notification, h]
    · simp [should_send_notification, h]
    · intro h1 h2 h3
      simp [should_send_notification, h, h1, h2, h3]

/-- Witness for claim C1 as amended: a concrete state with one recorded
notification, exercising the no-record case and the recorded case. -/
theorem claim_C1_amended_witness :
    ([("n1", (⟨0, 2024, 5, 10, 19⟩ : PyDateTime))].lookup "n2" = none ∧
      should_send_notification [("n1", ⟨0, 2024, 5, 10, 19⟩)] "n2" "daily"
        ⟨86400, 2024, 5, 11, 19⟩ = true) ∧
    ([("n1", (⟨0, 2024, 5, 10, 19⟩ : PyDateTime))].lookup "n1"
        = some ⟨0, 2024, 5, 10, 19⟩ ∧
      should_send_notification [("n1", ⟨0, 2024, 5, 10, 19⟩)] "n1" "biweekly"
        ⟨86400, 2024, 5, 11, 19⟩ = true) :=
  ⟨⟨by decide,
    (claim_C1_amended [("n1", ⟨0, 2024, 5, 10, 19⟩)] "n2" "daily"
      ⟨86400, 2024, 5, 11, 19⟩ ⟨0, 2024, 5, 10, 19⟩).1 (by decide)⟩,
   ⟨by decide,
    ((claim_C1_amended [("n1", ⟨0, 2024, 5, 10, 19⟩)] "n1" "biweekly"
      ⟨86400, 2024, 5, 11, 19⟩ ⟨0, 2024, 5, 10, 19⟩).2 (by decide)).2.2.2.2
      (by decide) (by decide) (by decide)⟩⟩

/-- The users table written by `create_user`: the new row is appended with
the next id, the hash of password-plus-salt, and NULL name and email. -/
theorem users_after_create (sha256hex : String → String)
    (salt username password created : String) (db : DB) :
    ((create_user sha256hex salt username password created db).2).users
      = db.users ++ [⟨db.nextUserId, none, username, none,
          sha256hex (password ++ salt), salt, created, STATUS_ACTIVE⟩] := rfl

/-- Claim C5: immediately after `create_user` with a username not already
present, `verify_user` with the same credentials returns `(true, userId)`
for the freshly assigned id, and `verify_user` with any single-character
mutation of the password whose salted digest differs (SHA-256 collision
freeness, which the shallow embedding takes as a side condition on the
abstract digest function) returns `(false, null)`. -/
theorem claim_C5 (sha256hex : String → String)
    (salt username password created : String) (db : DB)
    (hfresh : ∀ u ∈ db.users, u.username ≠ username) :
    verify_user sha256hex username password
        ((create_user sha256hex salt username password created db).2)
      = (true, some db.nextUserId) ∧
    (∀ p, singleCharDiff password p →
      sha256hex (p ++ salt) ≠ sha256hex (password ++ salt) →
      verify_user sha256hex username p
          ((create_user sha256hex salt username password created db).2)
        = (false, none)) := by
  have hnone : db.users.find? (fun u => u.username == username) = none :=
    List.find?_eq_none.mpr (fun u hu => by simpa using hfresh u hu)
  have hfind : (((create_user sha256hex salt username password created db).2).users).find?
      (fun u => u.username == username)
      = some ⟨db.nextUserId, none, username, none,
          sha256hex (password ++ salt), salt, created, STATUS_ACTIVE⟩ := by
    rw [users_after_create, List.find?_append, hnone]
    simp
  constructor
  · simp [verify_user, hfind, hash_password]
  · intro p _ hne
    have hne2 : sha256hex (password ++ salt) ≠ sha256hex (p ++ salt) :=
      fun hh => hne hh.symm
    simp [verify_user, hfind, hash_password, hne2]

/-- Witness for claim C5: creating alice with password Abcd1234 and salt sa
(under a concrete injective stand-in digest) verifies, while the
single-character mutation Abcd1235 is rejected. -/
theorem claim_C5_witness :
    (∀ u ∈ emptyDB.users, u.username ≠ "alice") ∧
    singleCharDiff "Abcd1234" "Abcd1235" ∧
    (fun s => s) ("Abcd1235" ++ "sa") ≠ (fun s => s) ("Abcd1234" ++ "sa") ∧
    verify_user (fun s => s) "alice" "Abcd1234"
        ((create_user (fun s => s) "sa" "alice" "Abcd1234" "t0" emptyDB).2)
      = (true, some 1) ∧
    verify_user (fun s => s) "alice" "Abcd1235"
        ((create_user (fun s => s) "sa" "alice" "Abcd1234" "t0" emptyDB).2)
      = (false, none) :=
  ⟨by simp [emptyDB], by constructor <;> decide, by decide,
   (claim_C5 (fun s => s) "sa" "alice" "Abcd1234" "t0" emptyDB
      (by simp [emptyDB])).1,
   (claim_C5 (fun s => s) "sa" "alice" "Abcd1234" "t0" emptyDB
      (by simp [emptyDB])).2 "Abcd1235" ⟨by decide, by decide⟩ (by decide)⟩

/-- Claim C6: `send_notification` mutates the scheduler state only on a
successful delivery — an empty title or message yields false with the
state unchanged, a delivery channel returning false yields false with the
state unchanged, and a true result implies the channel returned true and
the id's recorded last-sent time is now. -/
theorem claim_C6 (st : NMState) (prefs : List (String × String))
    (notify_ok : Bool) (now : PyDateTime) (nid title message frequency : String) :
    (title = "" ∨ message = "" →
      send_notification st prefs notify_ok now nid title message frequency
        = (false, st)) ∧
    (send_windows_notification prefs notify_ok = false →
      send_notification st prefs notify_ok now nid title message frequency
        = (false, st)) ∧
    ((send_notification st prefs notify_ok now nid title message frequency).1
        = true →
      send_windows_notification prefs notify_ok = true ∧
      ((send_notification st prefs notify_ok now nid title message
          frequency).2).lookup nid = some now) := by
  refine ⟨?_, ?_, ?_⟩
  · intro h
    rcases h with h | h <;> simp [send_notification, h]
  · intro h
    by_cases ht : (title == "" || message == "") = true
    · simp [send_notification, ht]
    · by_cases he : (prefGet prefs "enable_notifications" "True" == "True"
          && should_send_notification st nid frequency now) = true
      · simp [send_notification, ht, he, h]
      · simp [send_notification, ht, he]
  · intro h
    by_cases ht : (title == "" || message == "") = true
    · simp [send_notification, ht] at h
    · by_cases he : (prefGet prefs "enable_notifications" "True" == "True"
          && should_send_notification st nid frequency now) = true
      · by_cases hs : send_windows_notification prefs notify_ok = true
        · refine ⟨hs, ?_⟩
          simp [send_notification, ht, he, hs, update_last_sent_time,
            List.lookup_cons]
        · rw [Bool.not_eq_true] at hs
          simp [send_notification, ht, he, hs] at h
      · simp [send_notification, ht, he] at h

/-- Witness for claim C6: an empty title is refused with no state change; a
user who disabled notifications makes the channel report false with no
state change; and an enabled send records the last-sent time. -/
theorem claim_C6_witness :
    send_notification [] [] true ⟨0, 2024, 5, 10, 19⟩ "n" "" "Msg" "daily"
      = (false, []) ∧
    (send_windows_notification [("enable_notifications", "False")] true
        = false ∧
      send_notification [] [("enable_notifications", "False")] true
        ⟨0, 2024, 5, 10, 19⟩ "n" "Title" "Msg" "daily" = (false, [])) ∧
    ((send_notification [] [] true ⟨0, 2024, 5, 10, 19⟩ "n" "Title" "Msg"
        "daily").1 = true ∧
      send_windows_notification [] true = true ∧
      ((send_notification [] [] true ⟨0, 2024, 5, 10, 19⟩ "n" "Title" "Msg"
        "daily").2).lookup "n" = some ⟨0, 2024, 5, 10, 19⟩) :=
  ⟨(claim_C6 [] [] true ⟨0, 2024, 5, 10, 19⟩ "n" "" "Msg" "daily").1
     (Or.inl rfl),
   ⟨by decide,
    (claim_C6 [] [("enable_notifications", "False")] true ⟨0, 2024, 5, 10, 19⟩
      "n" "Title" "Msg" "daily").2.1 (by decide)⟩,
   ⟨by decide,
    ((claim_C6 [] [] true ⟨0, 2024, 5, 10, 19⟩ "n" "Title" "Msg" "daily").2.2
      (by decide)).1,
    ((claim_C6 [] [] true ⟨0, 2024, 5, 10, 19⟩ "n" "Title" "Msg" "daily").2.2
      (by decide)).2⟩⟩

/-- Membership in the LEFT JOIN color list: a NULL color when no priority
row of the task's owner matches the task's priority text, otherwise one
entry per matching row. -/
theorem mem_left_join_colors (db : DB) (t : TaskRow) (c : Option String) :
    c ∈ left_join_colors db t ↔
      ((∀ p ∈ db.priorities, ¬(t.priority = p.name ∧ t.user_id = p.user_id)) ∧
        c = none) ∨
      (∃ p ∈ db.priorities, t.priority = p.name ∧ t.user_id = p.user_id ∧
        c = some p.color) := by
  unfold left_join_colors
  split
  case isTrue hemp =>
    rw [List.isEmpty_iff] at hemp
    unfold matching_priorities at hemp
    rw [List.filter_eq_nil_iff] at hemp
    simp only [List.mem_singleton]
    constructor
    · rintro rfl
      refine Or.inl ⟨?_, rfl⟩
      intro p hp hc
      exact hemp p hp (by simp [hc.1, hc.2])
    · rintro (⟨_, rfl⟩ | ⟨p, hp, h1, h2, rfl⟩)
      · rfl
      · exact absurd (by simp [h1, h2]) (hemp p hp)
  case isFalse hemp =>
    have hne : matching_priorities db t ≠ [] := fun hnil => by
      simp [hnil] at hemp
    rw [List.mem_map]
    constructor
    · rintro ⟨p, hp, rfl⟩
      unfold matching_priorities at hp
      rw [List.mem_filter] at hp
      obtain ⟨hp1, hp2⟩ := hp
      simp only [Bool.and_eq_true, beq_iff_eq] at hp2
      exact Or.inr ⟨p, hp1, hp2.1, hp2.2, rfl⟩
    · rintro (⟨hall, rfl⟩ | ⟨p, hp, h1, h2, rfl⟩)
      · obtain ⟨q, hq⟩ := List.exists_mem_of_ne_nil _ hne
        unfold matching_priorities at hq
        rw [List.mem_filter] at hq
        obtain ⟨hq1, hq2⟩ := hq
        simp only [Bool.and_eq_true, beq_iff_eq] at hq2
        exact absurd ⟨hq2.1, hq2.2⟩ (hall q hq1)
      · exact ⟨p, by unfold matching_priorities
                     exact List.mem_filter.mpr ⟨hp, by simp [h1, h2]⟩, rfl⟩

/-- Claim C7: a row is in the output of `list_tasks(userId, status=None)`
exactly when it comes from one of that user's task rows with status active
or completed, carrying either a NULL color (no priority row of the user
matches the task's priority text) or the color of a matching priority row
of the same user. -/
theorem claim_C7 (user_id : Nat) (db : DB) (r : TaskViewRow) :
    r ∈ list_tasks user_id none db ↔
      ∃ t ∈ db.tasks, t.user_id = user_id ∧
        (t.status = STATUS_ACTIVE ∨ t.status = STATUS_COMPLETED) ∧
        ((r = task_view t none ∧
            ∀ p ∈ db.priorities, ¬(t.priority = p.name ∧ t.user_id = p.user_id)) ∨
         (∃ p ∈ db.priorities, t.priority = p.name ∧ t.user_id = p.user_id ∧
            r = task_view t (some p.color))) := by
  show r ∈ (db.tasks.filter (fun t =>
      t.user_id == user_id &&
        (t.status == STATUS_ACTIVE || t.status == STATUS_COMPLETED))).flatMap
    (fun t => (left_join_colors db t).map (task_view t)) ↔ _
  rw [List.mem_flatMap]
  constructor
  · rintro ⟨t, ht, hr⟩
    rw [List.mem_filter] at ht
    obtain ⟨ht1, ht2⟩ := ht
    simp only [Bool.and_eq_true, Bool.or_eq_true, beq_iff_eq] at ht2
    rw [List.mem_map] at hr
    obtain ⟨c, hc, rfl⟩ := hr
    rw [mem_left_join_colors] at hc
    refine ⟨t, ht1, ht2.1, ht2.2, ?_⟩
    rcases hc with ⟨hall, rfl⟩ | ⟨p, hp, h1, h2, rfl⟩
    · exact Or.inl ⟨rfl, hall⟩
    · exact Or.inr ⟨p, hp, h1, h2, rfl⟩
  · rintro ⟨t, ht, hu, hst, hcase⟩
    refine ⟨t, ?_, ?_⟩
    · rw [List.mem_filter]
      refine ⟨ht, ?_⟩
      rcases hst with h | h <;> simp [hu, h]
    · rw [List.mem_map]
      rcases hcase with ⟨rfl, hall⟩ | ⟨p, hp, h1, h2, rfl⟩
      · exact ⟨none, (mem_left_join_colors db t none).mpr (Or.inl ⟨hall, rfl⟩),
          rfl⟩
      · exact ⟨some p.color,
          (mem_left_join_colors db t _).mpr (Or.inr ⟨p, hp, h1, h2, rfl⟩), rfl⟩

/-- Mapping a function that preserves task ids commutes with looking up a
task row by id. -/
theorem find?_map_preserving (f : TaskRow → TaskRow)
    (hf : ∀ t, (f t).id = t.id) (l : List TaskRow) (i : Nat) :
    (l.map f).find? (fun t => t.id == i) = (l.find? (fun t => t.id == i)).map f := by
  induction l with
  | nil => rfl
  | cons a l ih =>
    have hfa : ((f a).id == i) = (a.id == i) := by rw [hf]
    cases ha : (a.id == i) <;>
      simp [List.find?_cons, hfa, ha, ih]

/-- Appending rows at the end of the tasks table never changes the status
read back for an id that already resolves (the first matching row wins). -/
theorem taskStatus_append (db : DB) (new : List TaskRow) (n2 : Nat)
    (i s : Nat) (h : taskStatus db i = some s) :
    taskStatus { db with tasks := db.tasks ++ new, nextTaskId := n2 } i
      = some s := by
  unfold taskStatus at h ⊢
  rw [Option.map_eq_some'] at h
  obtain ⟨t, ht, hts⟩ := h
  simp only [List.find?_append, ht, Option.or, Option.map_some', hts]

/-- The import loop only appends rows, so it preserves the status read
back for any id already present. -/
theorem taskStatus_import_fold (rows : List (List String)) (uid : Nat)
    (cr : String) (db : DB) (i s : Nat) (h : taskStatus db i = some s) :
    taskStatus (rows.foldl (import_row uid cr) db) i = some s := by
  induction rows generalizing db with
  | nil => exact h
  | cons r rs ih =>
    exact ih _ (taskStatus_append db _ _ i s h)

/-- Updating the tasks table with an id-preserving row transformation
rewrites the status read back for a present id to the transformed row's
status. -/
theorem taskStatus_map_tasks (f : TaskRow → TaskRow)
    (hf : ∀ t, (f t).id = t.id) (db : DB) (i s : Nat)
    (h : taskStatus db i = some s) :
    ∃ t, db.tasks.find? (fun t => t.id == i) = some t ∧ t.status = s ∧
      taskStatus { db with tasks := db.tasks.map f } i = some (f t).status := by
  unfold taskStatus at h ⊢
  rw [Option.map_eq_some'] at h
  obtain ⟨t, ht, hts⟩ := h
  exact ⟨t, ht, hts, by rw [find?_map_preserving f hf, ht]; rfl⟩

/-- Effect of one store operation on a present task's status: either the
status is untouched, or it is set to inactive (removeTasks) or completed
(setTaskComplete); no operation ever writes active into an existing row. -/
theorem applyOp_taskStatus (op : StoreOp) (db : DB) (i s : Nat)
    (h : taskStatus db i = some s) :
    ∃ s2, taskStatus (applyOp op db) i = some s2 ∧
      (s2 = s ∨ s2 = STATUS_INACTIVE ∨ s2 = STATUS_COMPLETED) := by
  cases op with
  | addTaskOp uid n d p c cr =>
    unfold applyOp add_task
    by_cases hv : is_valid_task_name n = false
    · simp only [hv, if_true]
      exact ⟨s, h, Or.inl rfl⟩
    · simp only [hv, if_false]
      exact ⟨s, taskStatus_append db _ _ i s h, Or.inl rfl⟩
  | updateTaskOp tid n d p c =>
    obtain ⟨t, _, hts, hmap⟩ := taskStatus_map_tasks (update_row tid n d p c)
      (fun t => by unfold update_row; split <;> rfl) db i s h
    refine ⟨_, hmap, Or.inl ?_⟩
    unfold update_row
    split <;> simp [hts]
  | removeTasksOp ids =>
    unfold applyOp remove_tasks
    by_cases hemp : ids.isEmpty = true
    · simp only [hemp, if_true]
      exact ⟨s, h, Or.inl rfl⟩
    · simp only [hemp, if_false]
      obtain ⟨t, _, hts, hmap⟩ := taskStatus_map_tasks (remove_row ids)
        (fun t => by unfold remove_row; split <;> rfl) db i s h
      refine ⟨_, hmap, ?_⟩
      unfold remove_row
      split
      · exact Or.inr (Or.inl rfl)
      · exact Or.inl hts
  | setTaskCompleteOp tid =>
    obtain ⟨t, _, hts, hmap⟩ := taskStatus_map_tasks (complete_row tid)
      (fun t => by unfold complete_row; split <;> rfl) db i s h
    refine ⟨_, hmap, ?_⟩
    unfold complete_row
    split
    · exact Or.inr (Or.inr rfl)
    · exact Or.inl hts
  | importTasksOp rows uid cr =>
    unfold applyOp import_tasks
    by_cases hv : (rows.filter (fun r => decide (5 ≤ r.length))).all
        (fun r => is_valid_task_name (r.getD 0 "")) = true
    · simp only [hv, if_true]
      exact ⟨s, taskStatus_import_fold _ uid cr db i s h, Or.inl rfl⟩
    · simp only [hv, if_false]
      exact ⟨s, h, Or.inl rfl⟩

/-- Status evolution along any trace of store operations: the final status
of a task present at the start is its initial status, inactive or
completed. -/
theorem applyOps_taskStatus (ops : List StoreOp) (db : DB) (i s : Nat)
    (h : taskStatus db i = some s) :
    ∃ s2, taskStatus (applyOps ops db) i = some s2 ∧
      (s2 = s ∨ s2 = STATUS_INACTIVE ∨ s2 = STATUS_COMPLETED) := by
  induction ops generalizing db s with
  | nil => exact ⟨s, h, Or.inl rfl⟩
  | cons op ops ih =>
    obtain ⟨s1, h1, hc1⟩ := applyOp_taskStatus op db i s h
    obtain ⟨s2, h2, hc2⟩ := ih (applyOp op db) s1 h1
    refine ⟨s2, h2, ?_⟩
    rcases hc2 with rfl | hc2
    · exact hc1
    · exact Or.inr hc2

/-- Counterexample to claim C3: `remove_tasks` is unconditional on the
current status, so passing a completed task's id exercises the
completed(2) to inactive(0) transition that the claim says is never
exercised. -/
theorem claim_C3_counterexample :
    taskStatus (⟨[], [⟨1, 1, "t", "d", "p", "c", "cr", 2⟩], [], [], [], 1, 2,
        1, 1, 1⟩ : DB) 1 = some STATUS_COMPLETED ∧
    taskStatus (applyOp (StoreOp.removeTasksOp [1])
        ⟨[], [⟨1, 1, "t", "d", "p", "c", "cr", 2⟩], [], [], [], 1, 2, 1, 1, 1⟩)
      1 = some STATUS_INACTIVE := by
  decide

/-- Claim C3 as amended: `removeTasks` and `setTaskComplete` write their
target status unconditionally, so completed(2) to inactive(0) (and
inactive(0) to completed(2)) ARE exercised; what does hold is that the
reactivation edge is absent — a task whose status is not active(1) is
never made active(1) by any sequence of store operations. -/
theorem claim_C3_amended (ops : List StoreOp) (db : DB) (i s : Nat)
    (h : taskStatus db i = some s) (hs : s ≠ STATUS_ACTIVE) :
    taskStatus (applyOps ops db) i ≠ some STATUS_ACTIVE := by
  obtain ⟨s2, h2, hc⟩ := applyOps_taskStatus ops db i s h
  rw [h2]
  intro hcontra
  rw [Option.some_inj] at hcontra
  subst hcontra
  rcases hc with rfl | h0 | h0
  · exact hs rfl
  · exact absurd h0 (by decide)
  · exact absurd h0 (by decide)

/-- Witness for claim C3 as amended: an inactive task stays non-active
across a concrete trace of completing, adding and removing. -/
theorem claim_C3_amended_witness :
    taskStatus (⟨[], [⟨1, 1, "t", "d", "p", "c", "cr", 0⟩], [], [], [], 1, 2,
        1, 1, 1⟩ : DB) 1 = some 0 ∧
    (0 : Nat) ≠ STATUS_ACTIVE ∧
    taskStatus (applyOps [StoreOp.setTaskCompleteOp 1,
        StoreOp.addTaskOp 1 "x" "d" "p" "c" "cr", StoreOp.removeTasksOp [2]]
        ⟨[], [⟨1, 1, "t", "d", "p", "c", "cr", 0⟩], [], [], [], 1, 2, 1, 1, 1⟩)
      1 ≠ some STATUS_ACTIVE :=
  ⟨by decide, by decide,
   claim_C3_amended [StoreOp.setTaskCompleteOp 1,
     StoreOp.addTaskOp 1 "x" "d" "p" "c" "cr", StoreOp.removeTasksOp [2]]
     ⟨[], [⟨1, 1, "t", "d", "p", "c", "cr", 0⟩], [], [], [], 1, 2, 1, 1, 1⟩
     1 0 (by decide) (by decide)⟩
